import Mathlib

/-!
Verification development for the oauth-golang authorization server.

The Go source is shallowly embedded: pure helpers (PKCE validation,
SHA-256, base64url, hex) become Lean functions over `Nat`-byte lists;
stateful components (the in-memory session/code store, the refresh-token
and revocation tables) become explicit state passed through the handler
functions; external effects (database writes, the upstream federation
exchange, clock and randomness) are threaded as explicit environment
values.  Machine integers are modelled as `Nat` with `% 2 ^ 32` where the
Go code relies on 32-bit wraparound (SHA-256 only).
-/

/-! ## Bytes and UTF-8 (Go `[]byte(s)` and `len(s)`) -/

/-- UTF-8 encoding of a single character, as Go produces for `[]byte(s)`. -/
def utf8Bytes (c : Char) : List Nat :=
  let n := c.toNat
  if n < 128 then [n]
  else if n < 2048 then [192 + n / 64, 128 + n % 64]
  else if n < 65536 then [224 + n / 4096, 128 + n / 64 % 64, 128 + n % 64]
  else [240 + n / 262144, 128 + n / 4096 % 64, 128 + n / 64 % 64, 128 + n % 64]

/-- Byte sequence of a list of characters. -/
def listBytes : List Char → List Nat
  | [] => []
  | c :: cs => utf8Bytes c ++ listBytes cs

/-- The UTF-8 bytes of a string, matching Go `[]byte(s)`. -/
def strBytes (s : String) : List Nat := listBytes s.data

/-- Go `len(s)`: the byte length of a string. -/
def goLen (s : String) : Nat := (strBytes s).length

/-! ## SHA-256 (Go `crypto/sha256`), FIPS 180-4 over `Nat` mod `2 ^ 32` -/

/-- Truncate to a 32-bit word. -/
def w32 (x : Nat) : Nat := x % 4294967296

/-- Right rotation of a 32-bit word by `n` bits. -/
def rotr (n x : Nat) : Nat := w32 ((x >>> n) + (x % 2 ^ n) * 2 ^ (32 - n))

/-- SHA-256 `Ch` function. -/
def shaCh (x y z : Nat) : Nat := (x &&& y) ^^^ ((x ^^^ 4294967295) &&& z)

/-- SHA-256 `Maj` function. -/
def shaMaj (x y z : Nat) : Nat := (x &&& y) ^^^ (x &&& z) ^^^ (y &&& z)

/-- SHA-256 Σ0. -/
def bigSigma0 (x : Nat) : Nat := rotr 2 x ^^^ rotr 13 x ^^^ rotr 22 x

/-- SHA-256 Σ1. -/
def bigSigma1 (x : Nat) : Nat := rotr 6 x ^^^ rotr 11 x ^^^ rotr 25 x

/-- SHA-256 σ0. -/
def smallSigma0 (x : Nat) : Nat := rotr 7 x ^^^ rotr 18 x ^^^ (x >>> 3)

/-- SHA-256 σ1. -/
def smallSigma1 (x : Nat) : Nat := rotr 17 x ^^^ rotr 19 x ^^^ (x >>> 10)

/-- SHA-256 round constants (FIPS 180-4 §4.2.2, written in decimal). -/
def shaK : List Nat :=
  [1116352408, 1899447441, 3049323471, 3921009573, 961987163, 1508970993,
   2453635748, 2870763221, 3624381080, 310598401, 607225278, 1426881987,
   1925078388, 2162078206, 2614888103, 3248222580, 3835390401, 4022224774,
   264347078, 604807628, 770255983, 1249150122, 1555081692, 1996064986,
   2554220882, 2821834349, 2952996808, 3210313671, 3336571891, 3584528711,
   113926993, 338241895, 666307205, 773529912, 1294757372, 1396182291,
   1695183700, 1986661051, 2177026350, 2456956037, 2730485921, 2820302411,
   3259730800, 3345764771, 3516065817, 3600352804, 4094571909, 275423344,
   430227734, 506948616, 659060556, 883997877, 958139571, 1322822218,
   1537002063, 1747873779, 1955562222, 2024104815, 2227730452, 2361852424,
   2428436474, 2756734187, 3204031479, 3329325298]

/-- Working state / digest registers of SHA-256. -/
structure Hash8 where
  a : Nat
  b : Nat
  c : Nat
  d : Nat
  e : Nat
  f : Nat
  g : Nat
  h : Nat
deriving DecidableEq, Repr

/-- SHA-256 initial hash value (FIPS 180-4 §5.3.3, written in decimal). -/
def shaH0 : Hash8 :=
  ⟨1779033703, 3144134277, 1013904242, 2773480762,
   1359893119, 2600822924, 528734635, 1541459225⟩

/-- Big-endian 4-byte encoding of a 32-bit word. -/
def be32 (n : Nat) : List Nat := [n / 16777216 % 256, n / 65536 % 256, n / 256 % 256, n % 256]

/-- Big-endian 8-byte encoding of a 64-bit length field. -/
def be64 (n : Nat) : List Nat :=
  [n / 72057594037927936 % 256, n / 281474976710656 % 256, n / 1099511627776 % 256,
   n / 4294967296 % 256, n / 16777216 % 256, n / 65536 % 256, n / 256 % 256, n % 256]

/-- SHA-256 message padding: append `0x80`, zeros, and the 64-bit bit length. -/
def shaPad (msg : List Nat) : List Nat :=
  msg ++ 128 :: List.replicate ((119 - msg.length % 64) % 64) 0 ++ be64 (msg.length * 8)

/-- Parse a byte list into big-endian 32-bit words (groups of four bytes). -/
def bytesToWords : List Nat → List Nat
  | b0 :: b1 :: b2 :: b3 :: rest =>
      (b0 * 16777216 + b1 * 65536 + b2 * 256 + b3) :: bytesToWords rest
  | _ => []

/-- Extend the (reversed) message schedule by `n` further words;
the head of the accumulator is the most recent word. -/
def extendW : Nat → List Nat → List Nat
  | 0, w => w
  | n + 1, w =>
      extendW n
        (w32 (smallSigma1 (w.getD 1 0) + w.getD 6 0 + smallSigma0 (w.getD 14 0) + w.getD 15 0) :: w)

/-- The 64 compression rounds, consuming the schedule and round constants in step. -/
def compressRounds : List Nat → List Nat → Hash8 → Hash8
  | wt :: ws, kt :: ks, ⟨a, b, c, d, e, f, g, h⟩ =>
      let t1 := w32 (h + bigSigma1 e + shaCh e f g + kt + wt)
      let t2 := w32 (bigSigma0 a + shaMaj a b c)
      compressRounds ws ks ⟨w32 (t1 + t2), a, b, c, w32 (d + t1), e, f, g⟩
  | _, _, st => st

/-- Add two register files word-wise mod `2 ^ 32`. -/
def addHash (x y : Hash8) : Hash8 :=
  ⟨w32 (x.a + y.a), w32 (x.b + y.b), w32 (x.c + y.c), w32 (x.d + y.d),
   w32 (x.e + y.e), w32 (x.f + y.f), w32 (x.g + y.g), w32 (x.h + y.h)⟩

/-- Process the padded message (as a word list) 16 words at a time;
`fuel` bounds the recursion and is instantiated with the word count. -/
def processBlocks : Nat → List Nat → Hash8 → Hash8
  | 0, _, st => st
  | fuel + 1, ws, st =>
      match ws with
      | [] => st
      | _ :: _ =>
          let sched := (extendW 48 (ws.take 16).reverse).reverse
          processBlocks fuel (ws.drop 16) (addHash st (compressRounds sched shaK st))

/-- Serialize the final registers as the 32-byte digest. -/
def digestBytes (st : Hash8) : List Nat :=
  be32 st.a ++ be32 st.b ++ be32 st.c ++ be32 st.d ++ be32 st.e ++ be32 st.f ++ be32 st.g ++ be32 st.h

/-- SHA-256 of a byte sequence (Go `sha256.Sum256`). -/
def sha256 (msg : List Nat) : List Nat :=
  digestBytes (processBlocks (bytesToWords (shaPad msg)).length (bytesToWords (shaPad msg)) shaH0)

/-! ## base64url without padding (Go `base64.RawURLEncoding`) and hex -/

/-- The base64url alphabet. -/
def b64Alphabet : List Char := "ABCDEFGHIJKLMNOPQRSTUVWXYZabcdefghijklmnopqrstuvwxyz0123456789-_".data

/-- Character for a 6-bit value. -/
def b64Char (n : Nat) : Char := b64Alphabet.getD n 'A'

/-- Raw (unpadded) base64url encoding of a byte list, three bytes at a time. -/
def b64urlChars : List Nat → List Char
  | [] => []
  | [a] => [b64Char (a / 4), b64Char (a % 4 * 16)]
  | [a, b] => [b64Char (a / 4), b64Char (a % 4 * 16 + b / 16), b64Char (b % 16 * 4)]
  | a :: b :: c :: rest =>
      b64Char (a / 4) :: b64Char (a % 4 * 16 + b / 16) :: b64Char (b % 16 * 4 + c / 64) ::
        b64Char (c % 64) :: b64urlChars rest

/-- Go `base64.RawURLEncoding.EncodeToString`. -/
def base64RawURL (bs : List Nat) : String := String.mk (b64urlChars bs)

/-- `base64url(SHA-256(s))` without padding: the PKCE S256 challenge of `s`. -/
def sha256base64url (s : String) : String := base64RawURL (sha256 (strBytes s))

/-- Hex digit characters. -/
def hexDigit (n : Nat) : Char := "0123456789abcdef".data.getD n '0'

/-- Lower-case hex encoding of a byte list (Go `hex.EncodeToString`). -/
def hexChars : List Nat → List Char
  | [] => []
  | b :: rest => hexDigit (b / 16) :: hexDigit (b % 16) :: hexChars rest

/-- `storage.hashToken`: the SHA-256 fingerprint of a raw token string, hex encoded. -/
def hashToken (token : String) : String := String.mk (hexChars (sha256 (strBytes token)))

/-! ## PKCE validator (`internal/oauth/pkce.go`) -/

/-- `isBase64URL`: every character is in the base64url alphabet
(A-Z, a-z, 0-9, `-`, `_`). -/
def isBase64URLChar (c : Char) : Bool :=
  (decide ('A' ≤ c) && decide (c ≤ 'Z')) || (decide ('a' ≤ c) && decide (c ≤ 'z')) ||
  (decide ('0' ≤ c) && decide (c ≤ '9')) || c == '-' || c == '_'

/-- `isBase64URL` from `pkce.go`: all characters of the string are base64url. -/
def isBase64URL (s : String) : Bool := s.data.all isBase64URLChar

/-- `PKCEValidator.ValidateCodeChallenge` from `pkce.go`. -/
def ValidateCodeChallenge (codeChallenge method : String) : Bool :=
  if codeChallenge = "" then false
  else if ¬ isBase64URL codeChallenge then false
  else if method ≠ "" ∧ method ≠ "plain" ∧ method ≠ "S256" then false
  else if goLen codeChallenge < 43 ∨ goLen codeChallenge > 128 then false
  else true

/-- `PKCEValidator.VerifyCodeChallenge` from `pkce.go`: the verifier must be
non-empty and 43-128 bytes long; `plain` (or no method) compares directly,
`S256` compares the base64url-encoded SHA-256 digest of the verifier. -/
def VerifyCodeChallenge (codeVerifier codeChallenge method : String) : Bool :=
  if codeVerifier = "" ∨ codeChallenge = "" then false
  else if goLen codeVerifier < 43 ∨ goLen codeVerifier > 128 then false
  else if method = "" ∨ method = "plain" then codeVerifier == codeChallenge
  else if method = "S256" then base64RawURL (sha256 (strBytes codeVerifier)) == codeChallenge
  else false

/-- The RFC 3986 unreserved-character check from
`PKCEValidator.ValidateCodeVerifier` (A-Z, a-z, 0-9, `-`, `.`, `_`, `~`). -/
def isUnreservedChar (c : Char) : Bool :=
  (decide ('A' ≤ c) && decide (c ≤ 'Z')) || (decide ('a' ≤ c) && decide (c ≤ 'z')) ||
  (decide ('0' ≤ c) && decide (c ≤ '9')) || c == '-' || c == '.' || c == '_' || c == '~'

/-- `PKCEValidator.ValidateCodeVerifier` from `pkce.go`: length 43-128 bytes and
only unreserved characters. -/
def ValidateCodeVerifier (codeVerifier : String) : Bool :=
  if goLen codeVerifier < 43 ∨ goLen codeVerifier > 128 then false
  else codeVerifier.data.all isUnreservedChar

/-- The package-level `verifyCodeChallenge` helper from
`internal/http/handlers` (the copy actually called during code redemption):
unlike the validator method it performs no length or emptiness checks. -/
def handlersVerifyCodeChallenge (codeVerifier codeChallenge method : String) : Bool :=
  if method = "" ∨ method = "plain" then codeVerifier == codeChallenge
  else if method = "S256" then base64RawURL (sha256 (strBytes codeVerifier)) == codeChallenge
  else false

/-! ## Signed tokens (`internal/security/keys.go`, JWT over HS256)

A signed artifact is modelled as its claim set together with the signing
algorithm family and the secret it was signed with; `jwt.Parse` then
succeeds exactly when the algorithm is HMAC, the recomputed signature
matches (same secret), and the `exp` claim, when present, has not passed
(the claim validation `jwt/v5` performs by default).  Serialization and
the HMAC computation itself are library code outside the repository. -/

/-- A JWT claim value: the Go code stores strings, Unix-second numbers and
booleans in `jwt.MapClaims`. -/
inductive CVal where
  | s (v : String)
  | n (v : Int)
  | b (v : Bool)
deriving DecidableEq, Repr

/-- `jwt.MapClaims`: a claim map, keyed by claim name. -/
abbrev MapClaims := List (String × CVal)

/-- Look up a claim by name. -/
def lookupClaim (m : MapClaims) (k : String) : Option CVal :=
  match m.find? (fun p => p.1 == k) with
  | some p => some p.2
  | none => none

/-- A string-valued claim (Go `claims[k].(string)`). -/
def strClaim (m : MapClaims) (k : String) : Option String :=
  match lookupClaim m k with
  | some (.s v) => some v
  | _ => none

/-- A numeric claim (Go `claims[k].(float64)`, holding Unix seconds). -/
def numClaim (m : MapClaims) (k : String) : Option Int :=
  match lookupClaim m k with
  | some (.n v) => some v
  | _ => none

/-- A boolean claim (Go `claims[k].(bool)`). -/
def boolClaim (m : MapClaims) (k : String) : Option Bool :=
  match lookupClaim m k with
  | some (.b v) => some v
  | _ => none

/-- Signing algorithm family of an artifact: the service signs with
`jwt.SigningMethodHS256`; anything else is rejected by the key function. -/
inductive SigAlg where
  | hs256
  | otherAlg
deriving DecidableEq, Repr

/-- A signed token artifact: its claims, algorithm, and signing secret. -/
structure SignedToken where
  claims : MapClaims
  alg : SigAlg
  key : String
deriving DecidableEq, Repr

/-- `security.TokenClaims` with Go zero values as defaults. -/
structure TokenClaims where
  Subject : String := ""
  Email : String := ""
  Name : String := ""
  GivenName : String := ""
  FamilyName : String := ""
  Picture : String := ""
  EmailVerified : Bool := false
  Scope : String := ""
  ClientID : String := ""
  Issuer : String := ""
  Audience : String := ""
  ExpiresAt : Int := 0
  IssuedAt : Int := 0
  ID : String := ""
deriving DecidableEq, Repr

/-- `security.JWTService`: signing secret and fixed issuer. -/
structure JWTService where
  secret : String
  issuer : String
deriving DecidableEq, Repr

/-- `NewJWTService`. -/
def NewJWTService (secret : String) : JWTService := ⟨secret, "oauth-service"⟩

/-- `JWTService.GenerateAccessToken`: one-hour expiry, type `"access"`.
`now` is the clock reading and `jti` the generated random id; signing is
modelled as infallible (the Go error branch is never taken by HMAC). -/
def GenerateAccessToken (s : JWTService) (now : Int) (jti : String) (c : TokenClaims) : SignedToken :=
  { claims := [("sub", .s c.Subject), ("email", .s c.Email), ("name", .s c.Name),
      ("scope", .s c.Scope), ("client_id", .s c.ClientID), ("iss", .s s.issuer),
      ("aud", .s "oauth-service"), ("exp", .n (now + 3600)), ("iat", .n now),
      ("jti", .s jti), ("type", .s "access")],
    alg := .hs256, key := s.secret }

/-- `JWTService.GenerateRefreshToken`: thirty-day expiry, type `"refresh"`,
minimal claims — in particular no `scope` claim. -/
def GenerateRefreshToken (s : JWTService) (now : Int) (jti : String) (userID : String) : SignedToken :=
  { claims := [("sub", .s userID), ("iss", .s s.issuer), ("aud", .s "oauth-service"),
      ("exp", .n (now + 2592000)), ("iat", .n now), ("jti", .s jti), ("type", .s "refresh")],
    alg := .hs256, key := s.secret }

/-- `JWTService.GenerateIDToken`: one-hour expiry, type `"id"`, with the
optional profile claims added only when non-empty. -/
def GenerateIDToken (s : JWTService) (now : Int) (c : TokenClaims) : SignedToken :=
  let base : MapClaims :=
    [("sub", .s c.Subject), ("email", .s c.Email), ("email_verified", .b c.EmailVerified),
     ("name", .s c.Name), ("iss", .s s.issuer), ("aud", .s "oauth-service"),
     ("exp", .n (now + 3600)), ("iat", .n now), ("type", .s "id")]
  let base := if c.GivenName ≠ "" then base ++ [("given_name", .s c.GivenName)] else base
  let base := if c.FamilyName ≠ "" then base ++ [("family_name", .s c.FamilyName)] else base
  let base := if c.Picture ≠ "" then base ++ [("picture", .s c.Picture)] else base
  { claims := base, alg := .hs256, key := s.secret }

/-- `jwt.Parse` with the service key function: rejects non-HMAC algorithms,
signature mismatches, and (per `jwt/v5` default claim validation) an `exp`
claim strictly in the past. -/
def jwtParse (s : JWTService) (now : Int) (t : SignedToken) : Except String MapClaims :=
  if t.alg ≠ .hs256 then .error "failed to parse token"
  else if t.key ≠ s.secret then .error "failed to parse token"
  else
    match lookupClaim t.claims "exp" with
    | some (.n e) => if e < now then .error "failed to parse token" else .ok t.claims
    | _ => .ok t.claims

/-- `mapClaimsToTokenClaims` from `keys.go`: copy each recognised claim,
leaving Go zero values where a claim is absent or of the wrong shape. -/
def mapClaimsToTokenClaims (m : MapClaims) : TokenClaims :=
  { Subject := (strClaim m "sub").getD "", Email := (strClaim m "email").getD "",
    Name := (strClaim m "name").getD "", GivenName := (strClaim m "given_name").getD "",
    FamilyName := (strClaim m "family_name").getD "", Picture := (strClaim m "picture").getD "",
    EmailVerified := (boolClaim m "email_verified").getD false,
    Scope := (strClaim m "scope").getD "", ClientID := (strClaim m "client_id").getD "",
    Issuer := (strClaim m "iss").getD "", Audience := (strClaim m "aud").getD "",
    ExpiresAt := (numClaim m "exp").getD 0, IssuedAt := (numClaim m "iat").getD 0,
    ID := (strClaim m "jti").getD "" }

/-- `JWTService.VerifyAccessToken`: parse/validate, then require the type
discriminator claim to be `"access"`. -/
def VerifyAccessToken (s : JWTService) (now : Int) (t : SignedToken) : Except String TokenClaims :=
  match jwtParse s now t with
  | .error e => .error e
  | .ok m =>
      match strClaim m "type" with
      | some ty => if ty = "access" then .ok (mapClaimsToTokenClaims m) else .error "not an access token"
      | none => .error "not an access token"

/-- `JWTService.VerifyRefreshToken`: parse/validate, then require the type
discriminator claim to be `"refresh"`. -/
def VerifyRefreshToken (s : JWTService) (now : Int) (t : SignedToken) : Except String TokenClaims :=
  match jwtParse s now t with
  | .error e => .error e
  | .ok m =>
      match strClaim m "type" with
      | some ty => if ty = "refresh" then .ok (mapClaimsToTokenClaims m) else .error "not a refresh token"
      | none => .error "not a refresh token"

/-! ## Durable storage (`internal/storage`) -/

/-- `storage.User` (`users` table row). -/
structure User where
  id : String := ""
  email : String := ""
  emailVerified : Bool := false
  name : String := ""
  givenName : String := ""
  familyName : String := ""
  googleID : String := ""
  picture : String := ""
  createdAt : Int := 0
  updatedAt : Int := 0
deriving DecidableEq, Repr

/-- `storage.RefreshToken` (`refresh_tokens` table row); the stored `token`
column is the signed artifact itself. -/
structure RefreshRow where
  token : SignedToken
  userID : String
  clientID : String
  scope : String
  expiresAt : Int
  revoked : Bool
  createdAt : Int
  updatedAt : Int
deriving DecidableEq, Repr

/-- The durable database state used by the token flows: the
`refresh_tokens` and `users` tables. -/
structure DB where
  refreshTokens : List RefreshRow
  users : List User
deriving DecidableEq, Repr

/-- `TokenRepository.StoreRefreshToken`: INSERT a row with the hard-coded
client id `"oauth-service"` and scope `"openid email profile"`; `execErr`
injects the possible SQL execution failure. -/
def StoreRefreshToken (execErr : Bool) (db : DB) (token : SignedToken) (userID : String)
    (expiresAt now : Int) : Except String DB :=
  if execErr then .error "failed to store refresh token"
  else .ok { db with refreshTokens :=
    db.refreshTokens ++ [⟨token, userID, "oauth-service", "openid email profile", expiresAt, false, now, now⟩] }

/-- `TokenRepository.GetRefreshToken`: SELECT by token value; the SQL
no-rows case is `none`. -/
def GetRefreshToken (db : DB) (token : SignedToken) : Option RefreshRow :=
  db.refreshTokens.find? (fun r => r.token == token)

/-- `TokenRepository.GetUserByID`: SELECT a user by primary key. -/
def GetUserByID (db : DB) (userID : String) : Option User :=
  db.users.find? (fun u => u.id == userID)

/-- `UserRepository.GetUserByGoogleID`. -/
def GetUserByGoogleID (db : DB) (googleID : String) : Option User :=
  db.users.find? (fun u => u.googleID == googleID)

/-- `UserRepository.GetUserByEmail`. -/
def GetUserByEmail (db : DB) (email : String) : Option User :=
  db.users.find? (fun u => u.email == email)

/-! ## Token lifecycle coordinator (`internal/oauth/token_service.go`) -/

/-- `oauth.TokenPair`. -/
structure TokenPair where
  AccessToken : SignedToken
  RefreshToken : SignedToken
  IDToken : SignedToken
  ExpiresIn : Int
deriving DecidableEq, Repr

/-- The effectful environment of one token-endpoint request: the clock, the
random strings drawn for the three `jti` claims and for a freshly created
user id, and whether the refresh-row INSERT fails. -/
structure Env where
  now : Int
  jtiAccess : String
  jtiRefresh : String
  jtiID : String
  newUserID : String
  storeFails : Bool
deriving DecidableEq, Repr

/-- `TokenService.GenerateTokens` (the spec's `IssueForSubject`): mint the
access/refresh/ID artifacts, then persist the refresh row; a persistence
failure aborts the call with an error and no pair. -/
def GenerateTokens (svc : JWTService) (env : Env) (db : DB) (user : User) (scope : String) :
    Except String (TokenPair × DB) :=
  let accessToken := GenerateAccessToken svc env.now env.jtiAccess
    { Subject := user.id, Email := user.email, Name := user.name, Scope := scope,
      ClientID := "oauth-service" }
  let refreshToken := GenerateRefreshToken svc env.now env.jtiRefresh user.id
  let idToken := GenerateIDToken svc env.now
    { Subject := user.id, Email := user.email, Name := user.name,
      EmailVerified := user.emailVerified, Picture := user.picture,
      GivenName := user.givenName, FamilyName := user.familyName }
  match StoreRefreshToken env.storeFails db refreshToken user.id (env.now + 2592000) env.now with
  | .error e => .error ("failed to store refresh token: " ++ e)
  | .ok db1 =>
      .ok ({ AccessToken := accessToken, RefreshToken := refreshToken,
             IDToken := idToken, ExpiresIn := 3600 }, db1)

/-- `TokenService.RefreshTokens`: verify the artifact, re-check the durable
row (existence, revoked flag, stored expiry), resolve the user, and mint a
fresh pair with the scope taken from the artifact's claims.  The `clientID`
parameter is accepted but never consulted, exactly as in the source.  (The
SQL no-rows outcome of the user lookup, which the Go code does not guard
against, is mapped to the same user-not-found rejection as a lookup error.) -/
def RefreshTokens (svc : JWTService) (env : Env) (db : DB) (refreshToken : SignedToken)
    (clientID : String) : Except String (TokenPair × DB) :=
  match VerifyRefreshToken svc env.now refreshToken with
  | .error _ => .error "invalid refresh token"
  | .ok claims =>
      match GetRefreshToken db refreshToken with
      | none => .error "refresh token not found or expired"
      | some storedToken =>
          if storedToken.revoked then .error "refresh token has been revoked"
          else if env.now > storedToken.expiresAt then .error "refresh token has expired"
          else
            match GetUserByID db storedToken.userID with
            | none => .error "user not found"
            | some user => GenerateTokens svc env db user claims.Scope

/-! ## Clients (`internal/storage` client repository, `internal/oauth/client_registry.go`) -/

/-- `storage.OAuthClient` (`oauth_clients` table row). -/
structure OAuthClient where
  clientID : String := ""
  clientSecret : String := ""
  clientName : String := ""
  clientType : String := ""
  redirectURIs : List String := []
  grantTypes : List String := []
  scope : String := ""
deriving DecidableEq, Repr

/-- `OAuthClient.IsConfidential`. -/
def IsConfidential (c : OAuthClient) : Bool := c.clientType == "confidential"

/-- `ClientRepository.GetClientByID` / `ClientRegistry.GetClient`: SELECT by
client id, `none` on no rows (the plain repository variant wired by the
router, without the auto-create branch of the GORM storage variant). -/
def GetClientByID (clients : List OAuthClient) (clientID : String) : Option OAuthClient :=
  clients.find? (fun c => c.clientID == clientID)

/-! ## Session & code store (`internal/oauth/pkce.go`, `AuthCodeService`) -/

/-- `models.GoogleUserInfo` (modelled from its uses in the user service and
callback handler; `internal/models/user.go` itself is not under `src/`). -/
structure GoogleUserInfo where
  id : String := ""
  email : String := ""
  verifiedEmail : Bool := false
  name : String := ""
  givenName : String := ""
  familyName : String := ""
  picture : String := ""
deriving DecidableEq, Repr

/-- `oauth.AuthSession`: a pending authorization keyed by the CSRF state. -/
structure AuthSession where
  clientID : String := ""
  redirectURI : String := ""
  state : String := ""
  codeChallenge : String := ""
  codeChallengeMethod : String := ""
  scope : String := ""
  createdAt : Int := 0
deriving DecidableEq, Repr

/-- `oauth.AuthCode`: a one-time authorization code record. -/
structure AuthCode where
  code : String := ""
  clientID : String := ""
  redirectURI : String := ""
  userID : String := ""
  codeChallenge : String := ""
  codeChallengeMethod : String := ""
  scope : String := ""
  expiresAt : Int := 0
  userInfo : GoogleUserInfo := {}
deriving DecidableEq, Repr

/-- The two maps of `oauth.AuthCodeService`; each individual operation below
is one mutex-guarded (hence atomic) map access. -/
structure Store where
  sessions : List (String × AuthSession)
  authCodes : List (String × AuthCode)
deriving DecidableEq, Repr

/-- `AuthCodeService.StoreSession` (map insert/overwrite). -/
def StoreSession (st : Store) (sessionID : String) (s : AuthSession) : Store :=
  { st with sessions := st.sessions.filter (fun p => p.1 != sessionID) ++ [(sessionID, s)] }

/-- `AuthCodeService.GetSession` (map read; does not remove). -/
def GetSession (st : Store) (sessionID : String) : Option AuthSession :=
  match st.sessions.find? (fun p => p.1 == sessionID) with
  | some p => some p.2
  | none => none

/-- `AuthCodeService.DeleteSession` (map delete). -/
def DeleteSession (st : Store) (sessionID : String) : Store :=
  { st with sessions := st.sessions.filter (fun p => p.1 != sessionID) }

/-- `AuthCodeService.StoreAuthCode` (map insert/overwrite). -/
def StoreAuthCode (st : Store) (code : String) (ac : AuthCode) : Store :=
  { st with authCodes := st.authCodes.filter (fun p => p.1 != code) ++ [(code, ac)] }

/-- `AuthCodeService.GetAuthCode` (map read; does not remove). -/
def GetAuthCode (st : Store) (code : String) : Option AuthCode :=
  match st.authCodes.find? (fun p => p.1 == code) with
  | some p => some p.2
  | none => none

/-- `AuthCodeService.DeleteAuthCode` (map delete). -/
def DeleteAuthCode (st : Store) (code : String) : Store :=
  { st with authCodes := st.authCodes.filter (fun p => p.1 != code) }

/-! ## User service (`internal/user`, `CreateOrUpdateUser`) -/

/-- `user.AuthService.CreateOrUpdateUser`: resolve an existing user by Google
id, then by email; update that row or create a fresh one with a random id
(`newID`).  The `userID` argument is accepted but, as in the source, never
used.  Repository errors cannot arise in the model, so the result is total. -/
def CreateOrUpdateUser (newID : String) (now : Int) (db : DB) (userID : String)
    (g : GoogleUserInfo) : User × DB :=
  let existing :=
    match GetUserByGoogleID db g.id with
    | some u => some u
    | none => GetUserByEmail db g.email
  match existing with
  | some ex =>
      let user : User := { id := ex.id, email := g.email, emailVerified := g.verifiedEmail,
                           name := g.name, givenName := g.givenName, familyName := g.familyName,
                           picture := g.picture, googleID := g.id, createdAt := ex.createdAt,
                           updatedAt := now }
      (user, { db with users := db.users.map (fun u => if u.id == ex.id then user else u) })
  | none =>
      let user : User := { id := newID, email := g.email, emailVerified := g.verifiedEmail,
                           name := g.name, givenName := g.givenName, familyName := g.familyName,
                           picture := g.picture, googleID := g.id, createdAt := now,
                           updatedAt := now }
      (user, { db with users := db.users ++ [user] })

/-! ## Token endpoint (`internal/http/handlers/token.go`) -/

/-- `handlers.TokenRequest`; the `refresh_token` form value is a raw JWT
string in Go, modelled as `Option SignedToken` with `none` for the empty
string. -/
structure TokenRequest where
  GrantType : String := ""
  Code : String := ""
  RedirectURI : String := ""
  ClientID : String := ""
  ClientSecret : String := ""
  CodeVerifier : String := ""
  RefreshToken : Option SignedToken := none
deriving DecidableEq, Repr

/-- `handlers.TokenResponse`. -/
structure TokenResponse where
  accessToken : SignedToken
  tokenType : String
  expiresIn : Int
  refreshToken : SignedToken
  idToken : SignedToken
deriving DecidableEq, Repr

/-- Outcome of a token-endpoint request: either the JSON token response or
an OAuth error (`writeError`) with its code, description and HTTP status. -/
inductive TokenResult where
  | success (resp : TokenResponse)
  | failure (errorCode description : String) (status : Nat)
deriving DecidableEq, Repr

/-- Whether a token-endpoint outcome is a success response. -/
def TokenResult.isSuccess : TokenResult → Bool
  | .success _ => true
  | .failure _ _ _ => false

/-- `writeTokenResponse`. -/
def writeTokenResponse (pair : TokenPair) : TokenResult :=
  .success { accessToken := pair.AccessToken, tokenType := "Bearer",
             expiresIn := pair.ExpiresIn, refreshToken := pair.RefreshToken,
             idToken := pair.IDToken }

/-- The collaborators of `handlers.TokenHandler`: the client directory and
the signing service. -/
structure HandlerDeps where
  clients : List OAuthClient
  svc : JWTService
deriving DecidableEq, Repr

/-- The tail of `handleAuthorizationCodeGrant` after the single atomic
`GetAuthCode` read (`found` is that read's result): expiry, client, redirect
and PKCE checks, then user materialization, token minting, and the separate
atomic `DeleteAuthCode`.  Split out because the store is only touched at
the two atomic map operations; everything in between is thread-local. -/
def redeemAfterGet (deps : HandlerDeps) (env : Env) (st : Store) (db : DB) (req : TokenRequest)
    (found : Option AuthCode) : TokenResult × Store × DB :=
  match found with
  | none => (.failure "invalid_grant" "Invalid authorization code" 400, st, db)
  | some authCode =>
      if env.now > authCode.expiresAt then
        (.failure "invalid_grant" "Authorization code expired" 400, DeleteAuthCode st req.Code, db)
      else if authCode.clientID ≠ req.ClientID then
        (.failure "invalid_grant" "Client ID mismatch" 400, st, db)
      else if authCode.redirectURI ≠ req.RedirectURI then
        (.failure "invalid_grant" "Redirect URI mismatch" 400, st, db)
      else if authCode.codeChallenge ≠ "" ∧ req.CodeVerifier = "" then
        (.failure "invalid_request" "code_verifier required" 400, st, db)
      else if authCode.codeChallenge ≠ "" ∧
          ¬ handlersVerifyCodeChallenge req.CodeVerifier authCode.codeChallenge
              authCode.codeChallengeMethod then
        (.failure "invalid_grant" "Invalid code_verifier" 400, st, db)
      else
        let ud := CreateOrUpdateUser env.newUserID env.now db authCode.userID authCode.userInfo
        match GenerateTokens deps.svc env ud.2 ud.1 authCode.scope with
        | .error _ => (.failure "server_error" "Failed to generate tokens" 500, st, ud.2)
        | .ok pd => (writeTokenResponse pd.1, DeleteAuthCode st req.Code, pd.2)

/-- `handleAuthorizationCodeGrant` (the spec's `RedeemCode`): parameter and
client checks, then the redemption protocol around the code store. -/
def handleAuthorizationCodeGrant (deps : HandlerDeps) (env : Env) (st : Store) (db : DB)
    (req : TokenRequest) : TokenResult × Store × DB :=
  if req.Code = "" ∨ req.RedirectURI = "" ∨ req.ClientID = "" then
    (.failure "invalid_request" "Missing required parameters" 400, st, db)
  else
    match GetClientByID deps.clients req.ClientID with
    | none => (.failure "invalid_client" "Invalid client credentials" 401, st, db)
    | some client =>
        if IsConfidential client ∧ client.clientSecret ≠ req.ClientSecret then
          (.failure "invalid_client" "Invalid client credentials" 401, st, db)
        else
          redeemAfterGet deps env st db req (GetAuthCode st req.Code)

/-- `handleRefreshTokenGrant`: parameter and client checks, then
`TokenService.RefreshTokens`, whose error is reported as `invalid_grant`. -/
def handleRefreshTokenGrant (deps : HandlerDeps) (env : Env) (db : DB) (req : TokenRequest) :
    TokenResult × DB :=
  match req.RefreshToken with
  | none => (.failure "invalid_request" "Missing required parameters" 400, db)
  | some rt =>
      if req.ClientID = "" then
        (.failure "invalid_request" "Missing required parameters" 400, db)
      else
        match GetClientByID deps.clients req.ClientID with
        | none => (.failure "invalid_client" "Invalid client credentials" 401, db)
        | some client =>
            if IsConfidential client ∧ client.clientSecret ≠ req.ClientSecret then
              (.failure "invalid_client" "Invalid client credentials" 401, db)
            else
              match RefreshTokens deps.svc env db rt req.ClientID with
              | .error e => (.failure "invalid_grant" e 400, db)
              | .ok pd => (writeTokenResponse pd.1, db)

/-! ## Federation callback (`AuthorizeHandler.HandleCallback`) -/

/-- The body Google returns from its token endpoint. -/
structure GoogleTokenResponse where
  accessToken : String := ""
  refreshToken : String := ""
  expiresIn : Int := 0
  tokenType : String := ""
  idToken : String := ""
deriving DecidableEq, Repr

/-- Environment of one callback request: the outcomes of the two upstream
Google calls, the random authorization code drawn, and the clock. -/
structure CallbackEnv where
  exchangeResult : Except String GoogleTokenResponse
  userInfoResult : Except String GoogleUserInfo
  newAuthCode : String
  now : Int
deriving Repr

/-- Outcome of the callback endpoint: an HTTP error page or the redirect
back to the client carrying the freshly minted code and the session state. -/
inductive CallbackResult where
  | httpError (msg : String) (status : Nat)
  | redirect (redirectURI code state : String)
deriving DecidableEq, Repr

/-- Whether a callback outcome is the success redirect. -/
def CallbackResult.isRedirect : CallbackResult → Bool
  | .redirect _ _ _ => true
  | .httpError _ _ => false

/-- `AuthorizeHandler.HandleCallback` (the spec's `CompleteFederation`):
look up the pending session by the `state` parameter, exchange the upstream
code, fetch the profile, mint and store a ten-minute authorization code,
and redirect back to the client.  As in the source, the session entry is
never deleted. -/
def HandleCallback (env : CallbackEnv) (st : Store) (code stateParam errorParam : String) :
    CallbackResult × Store :=
  if errorParam ≠ "" then (.httpError ("OAuth error: " ++ errorParam) 400, st)
  else if code = "" then (.httpError "Missing authorization code" 400, st)
  else
    match GetSession st stateParam with
    | none => (.httpError "Invalid state parameter" 400, st)
    | some session =>
        match env.exchangeResult with
        | .error e => (.httpError ("Failed to exchange code: " ++ e) 500, st)
        | .ok _ =>
            match env.userInfoResult with
            | .error e => (.httpError ("Failed to get user info: " ++ e) 500, st)
            | .ok userInfo =>
                let authCode := env.newAuthCode
                let st1 := StoreAuthCode st authCode
                  { code := authCode, clientID := session.clientID,
                    redirectURI := session.redirectURI, userID := userInfo.email,
                    codeChallenge := session.codeChallenge,
                    codeChallengeMethod := session.codeChallengeMethod,
                    scope := session.scope, expiresAt := env.now + 600,
                    userInfo := userInfo }
                (.redirect session.redirectURI authCode session.state, st1)

/-! ## Introspection (`internal/http/handlers/introspect.go`) -/

/-- `storage.TokenRepository.IsTokenRevoked`: the `revoked_tokens` table is
a list of (fingerprint, entry expiry) rows; the SQL EXISTS query matches the
token's fingerprint with `expires_at > now`. -/
def IsTokenRevoked (rows : List (String × Int)) (now : Int) (token : String) : Bool :=
  rows.any (fun r => r.1 == hashToken token && decide (now < r.2))

/-- `handlers.IntrospectResponse` (RFC 7662). -/
structure IntrospectResponse where
  active : Bool
  scope : String := ""
  clientID : String := ""
  username : String := ""
  tokenType : String := ""
  exp : Int := 0
  iat : Int := 0
  sub : String := ""
  aud : String := ""
  iss : String := ""
  jti : String := ""
deriving DecidableEq, Repr

/-- `writeInactiveResponse`. -/
def writeInactiveResponse : IntrospectResponse := { active := false }

/-- Collaborators of `handlers.IntrospectHandler`: at this boundary tokens
are raw strings, verified by `JWTService.VerifyAccessToken` (abstracted as a
function on the wire string) and fingerprinted by `hashToken` against the
revocation rows. -/
structure IntrospectDeps where
  verifyAccess : String → Except String TokenClaims
  revokedRows : List (String × Int)
  now : Int

/-- `IntrospectHandler.Handle` after request parsing: empty, unverifiable or
revoked tokens report inactive; otherwise the active response carries the
verified claims. -/
def IntrospectHandle (deps : IntrospectDeps) (token : String) : IntrospectResponse :=
  if token = "" then writeInactiveResponse
  else
    match deps.verifyAccess token with
    | .error _ => writeInactiveResponse
    | .ok claims =>
        if IsTokenRevoked deps.revokedRows deps.now token then writeInactiveResponse
        else
          { active := true, scope := claims.Scope, clientID := claims.ClientID,
            username := claims.Email, tokenType := "Bearer", exp := claims.ExpiresAt,
            iat := claims.IssuedAt, sub := claims.Subject, aud := claims.Audience,
            iss := claims.Issuer, jti := claims.ID }

/-! ## Concrete instances used by witnesses and counterexamples -/

/-- A request environment with a failing refresh-row INSERT. -/
def c4env : Env :=
  { now := 0, jtiAccess := "j1", jtiRefresh := "j2", jtiID := "j3", newUserID := "u1",
    storeFails := true }

/-- A 43-character verifier made of RFC-unreserved characters. -/
def c7verifier : String := String.mk (List.replicate 43 'q')

/-- A 43-character string whose characters are outside the RFC unreserved
set. -/
def c8verifier : String := String.mk (List.replicate 43 '!')

/-- Introspection collaborators under which the probed token is structurally
valid but durably revoked with an unexpired ledger entry. -/
def c5deps : IntrospectDeps :=
  { verifyAccess := fun _ => .ok {}, revokedRows := [(hashToken "tok", 10)], now := 3 }

/-- The signing service of the refresh-grant scenarios. -/
def c3svc : JWTService := NewJWTService "k"

/-- A refresh artifact minted at time 0 for subject `"u1"`. -/
def c3rt : SignedToken := GenerateRefreshToken c3svc 0 "j" "u1"

/-- The durable row for `c3rt`, flagged revoked. -/
def c3row : RefreshRow :=
  { token := c3rt, userID := "u1", clientID := "oauth-service",
    scope := "openid email profile", expiresAt := 2592000, revoked := true,
    createdAt := 0, updatedAt := 0 }

/-- Database holding the revoked row and its user. -/
def c3db : DB := ⟨[c3row], [{ id := "u1" }]⟩

/-- A registered public client. -/
def c3client : OAuthClient := { clientID := "app", clientType := "public" }

/-- Handler collaborators for the refresh-grant scenario. -/
def c3deps : HandlerDeps := ⟨[c3client], c3svc⟩

/-- Request environment at time 5 (the JWT is far from expiry). -/
def c3env : Env :=
  { now := 5, jtiAccess := "a", jtiRefresh := "r", jtiID := "i", newUserID := "n",
    storeFails := false }

/-- The refresh-grant request presenting `c3rt`. -/
def c3req : TokenRequest :=
  { GrantType := "refresh_token", ClientID := "app", RefreshToken := some c3rt }

/-- A pending authorization session keyed by state `"st-1"`. -/
def c9session : AuthSession :=
  { clientID := "demo", redirectURI := "http://x/cb", state := "st-1", scope := "openid",
    createdAt := 0 }

/-- Store holding only the pending session. -/
def c9st : Store := ⟨[("st-1", c9session)], []⟩

/-- The federated identity returned by the upstream provider. -/
def c9userInfo : GoogleUserInfo := { id := "g1", email := "u@example.com", name := "U" }

/-- Callback environment of the first upstream return. -/
def c9env : CallbackEnv :=
  { exchangeResult := .ok { accessToken := "gat" }, userInfoResult := .ok c9userInfo,
    newAuthCode := "K1", now := 10 }

/-- Callback environment of a second upstream return replaying the state. -/
def c9env2 : CallbackEnv :=
  { exchangeResult := .ok { accessToken := "gat2" }, userInfoResult := .ok c9userInfo,
    newAuthCode := "K2", now := 20 }

/-- The first callback execution. -/
def c9run1 : CallbackResult × Store := HandleCallback c9env c9st "gcode" "st-1" ""

/-- Fallback token pair used only to destructure `Except` results. -/
def fallbackPair : TokenPair := ⟨⟨[], .hs256, ""⟩, ⟨[], .hs256, ""⟩, ⟨[], .hs256, ""⟩, 0⟩

/-- Value of an `Except`, with a fallback for the error case. -/
def exceptOkD {ε α : Type} (d : α) : Except ε α → α
  | .ok a => a
  | .error _ => d

/-- Whether an `Except` is a success. -/
def isOkE {ε α : Type} : Except ε α → Bool
  | .ok _ => true
  | .error _ => false

/-- Signing service of the refresh-scope scenario. -/
def c6svc : JWTService := NewJWTService "sec"

/-- Environment of the original issuance (time 0). -/
def c6env0 : Env :=
  { now := 0, jtiAccess := "a1", jtiRefresh := "r1", jtiID := "i1", newUserID := "x",
    storeFails := false }

/-- Environment of the later refresh (time 50). -/
def c6env1 : Env :=
  { now := 50, jtiAccess := "a2", jtiRefresh := "r2", jtiID := "i2", newUserID := "y",
    storeFails := false }

/-- The subject of the refresh-scope scenario. -/
def c6user : User := { id := "u1", email := "u@example.com", name := "U" }

/-- Database before the original issuance. -/
def c6db0 : DB := ⟨[], [c6user]⟩

/-- The original issuance, granting scope `"openid email profile"`. -/
def c6issue : Except String (TokenPair × DB) :=
  GenerateTokens c6svc c6env0 c6db0 c6user "openid email profile"

/-- The token pair of the original issuance. -/
def c6pair0 : TokenPair := (exceptOkD (fallbackPair, c6db0) c6issue).1

/-- Database state after the original issuance. -/
def c6db1 : DB := (exceptOkD (fallbackPair, c6db0) c6issue).2

/-- The refresh call presenting the originally issued refresh artifact. -/
def c6refresh : Except String (TokenPair × DB) :=
  RefreshTokens c6svc c6env1 c6db1 c6pair0.RefreshToken "whatever-client"

/-- The token pair minted by the refresh. -/
def c6pair1 : TokenPair := (exceptOkD (fallbackPair, c6db1) c6refresh).1

/-- The refresh call used by the amended-claim witness (distinct client id). -/
def c6wrun : Except String (TokenPair × DB) :=
  RefreshTokens c6svc c6env1 c6db1 (GenerateRefreshToken c6svc 0 "r1" "u1") "app"

/-- Token pair of the witness refresh. -/
def c6wpair : TokenPair := (exceptOkD (fallbackPair, c6db1) c6wrun).1

/-- Database after the witness refresh. -/
def c6wdb : DB := (exceptOkD (fallbackPair, c6db1) c6wrun).2

/-- A registered public client with one redirect URI. -/
def c1client : OAuthClient :=
  { clientID := "demo", clientType := "public", redirectURIs := ["http://x/cb"] }

/-- Handler collaborators for the redemption scenarios. -/
def c1deps : HandlerDeps := ⟨[c1client], NewJWTService "k"⟩

/-- Federated identity snapshot carried by the authorization code. -/
def c1userInfo : GoogleUserInfo := { id := "g1", email := "u@example.com", name := "U" }

/-- A valid authorization code `"K"` (no PKCE binding), expiring at 100. -/
def c1code : AuthCode :=
  { code := "K", clientID := "demo", redirectURI := "http://x/cb",
    userID := "u@example.com", scope := "openid", expiresAt := 100, userInfo := c1userInfo }

/-- Store holding the single pending code `"K"`. -/
def c1st : Store := ⟨[], [("K", c1code)]⟩

/-- Empty database before redemption. -/
def c1db : DB := ⟨[], []⟩

/-- Environment of the first redemption (time 5). -/
def c1env : Env :=
  { now := 5, jtiAccess := "a1", jtiRefresh := "r1", jtiID := "i1", newUserID := "uid1",
    storeFails := false }

/-- Environment of the second redemption attempt (time 6, fresh randomness). -/
def c1env2 : Env :=
  { now := 6, jtiAccess := "a2", jtiRefresh := "r2", jtiID := "i2", newUserID := "uid2",
    storeFails := false }

/-- The redemption request presenting code `"K"`. -/
def c1req : TokenRequest :=
  { GrantType := "authorization_code", Code := "K", RedirectURI := "http://x/cb",
    ClientID := "demo" }

/-! # Theorems -/

/-- Claim C10: the result of `RefreshTokens` is independent of the
`clientID` argument — the coordinator never checks that the presented
refresh token was issued to the requesting client, so for any two client
identifiers and the same token and store state the outcomes coincide. -/
theorem RefreshTokens_ignores_clientID (svc : JWTService) (env : Env) (db : DB)
    (t : SignedToken) (cid1 cid2 : String) :
    RefreshTokens svc env db t cid1 = RefreshTokens svc env db t cid2 := rfl

/-- Claim C4: if durable persistence of the refresh record fails,
`GenerateTokens` (the spec's `IssueForSubject`) returns an error and no
token triple at all. -/
theorem GenerateTokens_store_failure (svc : JWTService) (env : Env) (db : DB) (user : User)
    (scope : String) (h : env.storeFails = true) :
    ∃ msg, GenerateTokens svc env db user scope = .error msg :=
  ⟨"failed to store refresh token: failed to store refresh token",
    by simp [GenerateTokens, StoreRefreshToken, h]⟩

/-- Witness for C4: a concrete failing INSERT aborts issuance. -/
theorem GenerateTokens_store_failure_witness :
    c4env.storeFails = true ∧
      ∃ msg, GenerateTokens (NewJWTService "k") c4env ⟨[], []⟩ {} "openid" = .error msg :=
  ⟨rfl, GenerateTokens_store_failure (NewJWTService "k") c4env ⟨[], []⟩ {} "openid" rfl⟩

/-- Claim C8 (amended): `VerifyCodeChallenge` rejects every verifier whose
byte length lies outside 43-128, for every challenge and method; it is a
total boolean function.  (The character-set restriction in the claim is not
enforced by the code — see the counterexample.) -/
theorem VerifyCodeChallenge_length_bounds (v c m : String)
    (h : goLen v < 43 ∨ 128 < goLen v) : VerifyCodeChallenge v c m = false := by
  unfold VerifyCodeChallenge
  by_cases h0 : v = "" ∨ c = ""
  · rw [if_pos h0]
  · rw [if_neg h0, if_pos h]

/-- Witness for C8: a one-byte verifier fails verification. -/
theorem VerifyCodeChallenge_length_bounds_witness :
    (goLen "x" < 43 ∨ 128 < goLen "x") ∧ VerifyCodeChallenge "x" "y" "plain" = false :=
  ⟨by decide, VerifyCodeChallenge_length_bounds "x" "y" "plain" (by decide)⟩

/-- Counterexample for C8: a 43-character verifier consisting of `!`
characters — outside the RFC unreserved set, as `ValidateCodeVerifier`
itself attests — still verifies successfully under the `plain` method, so
verification does not return false on non-unreserved characters. -/
theorem VerifyCodeChallenge_no_charset_check :
    VerifyCodeChallenge c8verifier c8verifier "plain" = true ∧
      ValidateCodeVerifier c8verifier = false ∧ isUnreservedChar '!' = false := by
  decide

/-- Counterexample for C7: the round-trip claim fails for the verifier
`"a"` — `VerifyCodeChallenge` rejects it (length below 43) even against its
own correctly computed S256 challenge. -/
theorem VerifyCodeChallenge_roundtrip_fails_short :
    VerifyCodeChallenge "a" (sha256base64url "a") "S256" = false := by decide

/-- The base64url encoding of a non-empty byte list is non-empty. -/
theorem b64urlChars_ne_nil (l : List Nat) (h : l ≠ []) : b64urlChars l ≠ [] := by
  match l with
  | [] => exact absurd rfl h
  | [a] => simp [b64urlChars]
  | [a, b] => simp [b64urlChars]
  | a :: b :: c :: rest => simp [b64urlChars]

/-- A SHA-256 digest is never the empty byte list. -/
theorem sha256_ne_nil (msg : List Nat) : sha256 msg ≠ [] := by
  simp [sha256, digestBytes, be32]

/-- An S256 challenge string is never empty. -/
theorem sha256base64url_ne_empty (s : String) : sha256base64url s ≠ "" := by
  simp only [sha256base64url, base64RawURL, ne_eq, String.ext_iff]
  exact b64urlChars_ne_nil _ (sha256_ne_nil _)

/-- Claim C7 (amended): for any verifier of valid byte length (43-128), the
S256 round trip succeeds; and any string `W` verifies against `V`'s S256
challenge only when `W` itself has valid length and `W`'s computed
challenge equals `V`'s — so distinctness of `W` from `V` forces rejection
exactly when their SHA-256 challenges differ. -/
theorem VerifyCodeChallenge_s256_characterization (V W : String)
    (h1 : 43 ≤ goLen V) (h2 : goLen V ≤ 128) :
    VerifyCodeChallenge V (sha256base64url V) "S256" = true ∧
      (VerifyCodeChallenge W (sha256base64url V) "S256" = true →
        43 ≤ goLen W ∧ goLen W ≤ 128 ∧ sha256base64url W = sha256base64url V) := by
  constructor
  · have hV : V ≠ "" := by
      intro e
      rw [e] at h1
      simp [goLen, strBytes, listBytes] at h1
    unfold VerifyCodeChallenge
    rw [if_neg (by simp [hV, sha256base64url_ne_empty V])]
    rw [if_neg (by omega)]
    rw [if_neg (by simp)]
    rw [if_pos rfl]
    exact beq_self_eq_true _
  · intro h
    unfold VerifyCodeChallenge at h
    split at h
    · exact absurd h (by simp)
    · split at h
      · exact absurd h (by simp)
      · rw [if_neg (by simp), if_pos rfl] at h
        refine ⟨by omega, by omega, ?_⟩
        exact eq_of_beq h

/-- Witness for C7: a concrete valid-length verifier round-trips, and the
characterization applies to it. -/
theorem VerifyCodeChallenge_s256_characterization_witness :
    (43 ≤ goLen c7verifier ∧ goLen c7verifier ≤ 128) ∧
      VerifyCodeChallenge c7verifier (sha256base64url c7verifier) "S256" = true :=
  ⟨by decide,
    (VerifyCodeChallenge_s256_characterization c7verifier c7verifier (by decide) (by decide)).1⟩

/-- Claim C5: a token that verifies structurally but whose fingerprint sits
in the revocation ledger with an entry expiry still in the future is
reported inactive by introspection — ledger membership supersedes signature
validity. -/
theorem Introspect_revoked_reports_inactive (deps : IntrospectDeps) (token : String)
    (claims : TokenClaims) (e : Int)
    (hv : deps.verifyAccess token = .ok claims)
    (hm : (hashToken token, e) ∈ deps.revokedRows)
    (he : deps.now < e) :
    (IntrospectHandle deps token).active = false := by
  have hrev : IsTokenRevoked deps.revokedRows deps.now token = true := by
    unfold IsTokenRevoked
    exact List.any_eq_true.mpr ⟨(hashToken token, e), hm, by simp [he]⟩
  unfold IntrospectHandle
  split
  · rfl
  · simp [hv, hrev, writeInactiveResponse]

/-- Witness for C5: a concrete structurally-valid token with an unexpired
ledger entry introspects as inactive. -/
theorem Introspect_revoked_reports_inactive_witness :
    c5deps.verifyAccess "tok" = .ok {} ∧ (hashToken "tok", 10) ∈ c5deps.revokedRows ∧
      c5deps.now < 10 ∧ (IntrospectHandle c5deps "tok").active = false :=
  ⟨rfl, by simp [c5deps], by norm_num [c5deps],
    Introspect_revoked_reports_inactive c5deps "tok" {} 10 rfl (by simp [c5deps])
      (by norm_num [c5deps])⟩

/-- Claim C3: a refresh succeeds only when the JWT verification and all the
durable-record checks (row exists, not revoked, stored expiry not passed)
pass; and a refresh token whose durable record is revoked is rejected with
`invalid_grant` by the handler even when its JWT still verifies. -/
theorem Refresh_requires_jwt_and_record_checks (deps : HandlerDeps) (env : Env) (db : DB)
    (req : TokenRequest) (rt : SignedToken) (hreq : req.RefreshToken = some rt) :
    (∀ resp db1, handleRefreshTokenGrant deps env db req = (.success resp, db1) →
      ∃ claims row, VerifyRefreshToken deps.svc env.now rt = .ok claims ∧
        GetRefreshToken db rt = some row ∧ row.revoked = false ∧ env.now ≤ row.expiresAt) ∧
    (∀ row claims client, GetRefreshToken db rt = some row → row.revoked = true →
      VerifyRefreshToken deps.svc env.now rt = .ok claims →
      req.ClientID ≠ "" →
      GetClientByID deps.clients req.ClientID = some client →
      (IsConfidential client = true → client.clientSecret = req.ClientSecret) →
      handleRefreshTokenGrant deps env db req
        = (.failure "invalid_grant" "refresh token has been revoked" 400, db)) := by
  constructor
  · intro resp db1 h
    simp only [handleRefreshTokenGrant, hreq] at h
    split at h
    · simp at h
    · split at h
      · simp at h
      · split at h
        · simp at h
        · split at h
          next e heq => simp at h
          next pd heq =>
            simp only [RefreshTokens] at heq
            split at heq
            · simp at heq
            next claims heqv =>
              split at heq
              · simp at heq
              next row heqr =>
                split at heq
                · simp at heq
                · split at heq
                  · simp at heq
                  · split at heq
                    · simp at heq
                    next user hequ =>
                      refine ⟨claims, row, heqv, heqr, ?_, ?_⟩
                      · simp_all
                      · simp_all
                        try omega
  · intro row claims client hg hrev hv hcid hcl hsec
    have hc2 : ¬ (IsConfidential client = true ∧ client.clientSecret ≠ req.ClientSecret) := by
      rintro ⟨hc, hne⟩
      exact hne (hsec hc)
    simp [handleRefreshTokenGrant, hreq, hcid, hcl, hc2, RefreshTokens, hv, hg, hrev]

/-- Witness for C3: the concrete revoked-but-signature-valid refresh token
is rejected with `invalid_grant`. -/
theorem Refresh_requires_jwt_and_record_checks_witness :
    GetRefreshToken c3db c3rt = some c3row ∧ c3row.revoked = true ∧
      (∃ claims, VerifyRefreshToken c3svc c3env.now c3rt = .ok claims) ∧
      handleRefreshTokenGrant c3deps c3env c3db c3req
        = (.failure "invalid_grant" "refresh token has been revoked" 400, c3db) :=
  ⟨rfl, rfl, ⟨_, rfl⟩,
    (Refresh_requires_jwt_and_record_checks c3deps c3env c3db c3req c3rt rfl).2
      c3row _ c3client rfl rfl rfl (by decide) rfl (by intro h; rfl)⟩

/-- A successful `jwtParse` always returns the artifact's own claim map. -/
theorem jwtParse_ok (s : JWTService) (now : Int) (t : SignedToken) (m : MapClaims)
    (h : jwtParse s now t = .ok m) : m = t.claims := by
  unfold jwtParse at h
  split at h
  · simp at h
  · split at h
    · simp at h
    · split at h
      next e =>
        split at h
        · simp at h
        · exact (Except.ok.inj h).symm
      next => exact (Except.ok.inj h).symm

/-- A successful refresh-token verification returns exactly the mapped
claims of the presented artifact. -/
theorem VerifyRefreshToken_ok_claims (svc : JWTService) (now : Int) (t : SignedToken)
    (claims : TokenClaims) (h : VerifyRefreshToken svc now t = .ok claims) :
    claims = mapClaimsToTokenClaims t.claims := by
  unfold VerifyRefreshToken at h
  split at h
  · simp at h
  next m heq =>
    have hm := jwtParse_ok _ _ _ _ heq
    subst hm
    split at h
    next ty hty =>
      split at h
      · exact (Except.ok.inj h).symm
      · simp at h
    · simp at h

/-- Claim C6 (amended): a successful refresh mints the new triple for the
subject of the presented token's durable record, but with the scope taken
from the refresh JWT's `scope` claim — which `GenerateRefreshToken` never
sets — so the new access token carries the empty scope rather than the
originally granted one. -/
theorem Refresh_same_subject_empty_scope (svc : JWTService) (env : Env) (db : DB)
    (clientID : String) (n : Int) (jti uid : String) (pair : TokenPair) (db1 : DB)
    (h : RefreshTokens svc env db (GenerateRefreshToken svc n jti uid) clientID
      = .ok (pair, db1)) :
    ∃ row user, GetRefreshToken db (GenerateRefreshToken svc n jti uid) = some row ∧
      GetUserByID db row.userID = some user ∧
      strClaim pair.AccessToken.claims "sub" = some user.id ∧
      strClaim pair.RefreshToken.claims "sub" = some user.id ∧
      strClaim pair.AccessToken.claims "scope" = some "" := by
  simp only [RefreshTokens] at h
  split at h
  · simp at h
  next claims heqv =>
    split at h
    · simp at h
    next row heqr =>
      split at h
      · simp at h
      · split at h
        · simp at h
        · split at h
          · simp at h
          next user hequ =>
            have hclaims := VerifyRefreshToken_ok_claims _ _ _ _ heqv
            have hscope : claims.Scope = "" := by rw [hclaims]; rfl
            rw [hscope] at h
            simp only [GenerateTokens, StoreRefreshToken] at h
            split at h
            · simp at h
            · simp only [Except.ok.injEq, Prod.mk.injEq] at h
              obtain ⟨h1, h2⟩ := h
              refine ⟨row, user, heqr, hequ, ?_, ?_, ?_⟩ <;> rw [← h1] <;> rfl

/-- Witness for C6 (amended): the concrete refresh succeeds, preserves the
subject `"u1"`, and mints an access token with empty scope. -/
theorem Refresh_same_subject_empty_scope_witness :
    c6wrun = .ok (c6wpair, c6wdb) ∧
      (∃ row user, GetRefreshToken c6db1 (GenerateRefreshToken c6svc 0 "r1" "u1") = some row ∧
        GetUserByID c6db1 row.userID = some user ∧
        strClaim c6wpair.AccessToken.claims "sub" = some user.id ∧
        strClaim c6wpair.RefreshToken.claims "sub" = some user.id ∧
        strClaim c6wpair.AccessToken.claims "scope" = some "") :=
  ⟨rfl, Refresh_same_subject_empty_scope c6svc c6env1 c6db1 "app" 0 "r1" "u1" c6wpair c6wdb rfl⟩

/-- Counterexample for C6: the original issuance grants (and stamps into its
access token) the scope `"openid email profile"`, the refresh succeeds, yet
the refreshed access token carries scope `""` — the granted scope is not
preserved across `RefreshTokens`. -/
theorem Refresh_scope_counterexample :
    isOkE c6issue = true ∧ isOkE c6refresh = true ∧
      strClaim c6pair0.AccessToken.claims "scope" = some "openid email profile" ∧
      strClaim c6pair1.AccessToken.claims "scope" = some "" ∧
      strClaim c6pair1.AccessToken.claims "sub" = some "u1" ∧
      "openid email profile" ≠ "" := by decide

/-- Claim C9 (amended): the callback handler never touches the session map —
after any callback, successful or not, the sessions are unchanged — and a
callback for a still-present session with a non-empty upstream code, no
error parameter and successful upstream calls always redirects with a fresh
code; in particular a second callback replaying the same state succeeds
instead of failing. -/
theorem Callback_session_persists (env : CallbackEnv) (st : Store)
    (code stateParam errorParam : String) :
    (HandleCallback env st code stateParam errorParam).2.sessions = st.sessions ∧
      (∀ session g u, GetSession st stateParam = some session → code ≠ "" → errorParam = "" →
        env.exchangeResult = .ok g → env.userInfoResult = .ok u →
        (HandleCallback env st code stateParam errorParam).1
          = .redirect session.redirectURI env.newAuthCode session.state) := by
  constructor
  · unfold HandleCallback
    split
    · rfl
    · split
      · rfl
      · split
        · rfl
        · split
          · rfl
          · split
            · rfl
            · rfl
  · intro session g u hs hc he hex hui
    simp [HandleCallback, he, hc, hs, hex, hui]

/-- Witness for C9 (amended): the concrete first callback leaves the session
in place and redirects with the fresh code `"K1"`. -/
theorem Callback_session_persists_witness :
    (HandleCallback c9env c9st "gcode" "st-1" "").2.sessions = c9st.sessions ∧
      (HandleCallback c9env c9st "gcode" "st-1" "").1 = .redirect "http://x/cb" "K1" "st-1" :=
  ⟨(Callback_session_persists c9env c9st "gcode" "st-1" "").1,
    (Callback_session_persists c9env c9st "gcode" "st-1" "").2 c9session _ _ rfl
      (by decide) rfl rfl rfl⟩

/-- Counterexample for C9: after a successful callback the session keyed by
the state value is still in the store, and a second callback presenting the
same state value succeeds again (it does not fail with an unknown-session
error). -/
theorem Callback_session_not_removed :
    (c9run1.1).isRedirect = true ∧ GetSession c9run1.2 "st-1" = some c9session ∧
      ((HandleCallback c9env2 c9run1.2 "gcode2" "st-1" "").1).isRedirect = true := by
  decide

/-- Looking up a code immediately after deleting it finds nothing. -/
theorem getAuthCode_delete (st : Store) (k : String) :
    GetAuthCode (DeleteAuthCode st k) k = none := by
  unfold GetAuthCode DeleteAuthCode
  have hfind : (st.authCodes.filter (fun p => p.1 != k)).find? (fun p => p.1 == k) = none := by
    rw [List.find?_eq_none]
    intro x hx
    have hne := (List.mem_filter.mp hx).2
    simp only [bne_iff_ne, ne_eq] at hne
    simp [hne]
  simp [hfind]

/-- Claim C1: once a redemption of code `K` has succeeded, any subsequent
well-formed redemption presenting the same `K` (non-empty parameters and
passing client authentication) fails with `invalid_grant`: the success path
deleted `K` from the code store. -/
theorem Redeem_code_single_use (deps : HandlerDeps) (env : Env) (st : Store) (db : DB)
    (req : TokenRequest) (resp : TokenResponse) (st1 : Store) (db1 : DB)
    (h : handleAuthorizationCodeGrant deps env st db req = (.success resp, st1, db1)) :
    ∀ deps2 env2 db2 req2 client,
      req2.Code = req.Code → req2.RedirectURI ≠ "" → req2.ClientID ≠ "" →
      GetClientByID deps2.clients req2.ClientID = some client →
      (IsConfidential client = true → client.clientSecret = req2.ClientSecret) →
      (handleAuthorizationCodeGrant deps2 env2 st1 db2 req2).1
        = .failure "invalid_grant" "Invalid authorization code" 400 := by
  simp only [handleAuthorizationCodeGrant] at h
  split at h
  · simp at h
  next hparams =>
    split at h
    · simp at h
    next client0 hcl0 =>
      split at h
      · simp at h
      next hsec0 =>
        simp only [redeemAfterGet] at h
        split at h
        · simp at h
        next ac hac =>
          split at h
          · simp at h
          · split at h
            · simp at h
            · split at h
              · simp at h
              · split at h
                · simp at h
                · split at h
                  · simp at h
                  · split at h
                    · simp at h
                    next pd hgen =>
                      have hst1 : st1 = DeleteAuthCode st req.Code := by
                        have hx := congrArg (fun x => x.2.1) h
                        simpa using hx.symm
                      intro deps2 env2 db2 req2 client hcode hru hcid hcl hsec
                      have hKne : req.Code ≠ "" := fun e => hparams (Or.inl e)
                      have hlookup : GetAuthCode st1 req2.Code = none := by
                        rw [hst1, hcode]
                        exact getAuthCode_delete st req.Code
                      have hparams2 :
                          ¬ (req2.Code = "" ∨ req2.RedirectURI = "" ∨ req2.ClientID = "") := by
                        rintro (e | e | e)
                        · exact hKne (hcode ▸ e)
                        · exact hru e
                        · exact hcid e
                      have hsec2 :
                          ¬ (IsConfidential client = true ∧
                              client.clientSecret ≠ req2.ClientSecret) := by
                        rintro ⟨hc, hne⟩
                        exact hne (hsec hc)
                      simp [handleAuthorizationCodeGrant, hparams2, hcl, hsec2,
                        redeemAfterGet, hlookup]

/-- Witness for C1: the concrete first redemption of `"K"` succeeds and the
immediate second redemption of the same code fails with `invalid_grant`. -/
theorem Redeem_code_single_use_witness :
    (handleAuthorizationCodeGrant c1deps c1env c1st c1db c1req).1.isSuccess = true ∧
      (handleAuthorizationCodeGrant c1deps c1env2
          (handleAuthorizationCodeGrant c1deps c1env c1st c1db c1req).2.1 c1db c1req).1
        = .failure "invalid_grant" "Invalid authorization code" 400 := by
  refine ⟨by decide, ?_⟩
  exact Redeem_code_single_use c1deps c1env c1st c1db c1req _ _ _ rfl c1deps c1env2 c1db
    c1req c1client rfl (by decide) (by decide) rfl (fun hc => absurd hc (by decide))

/-- Claim C2 (code evidence): the redemption protocol is NOT serialized as a
unit — only the individual map operations are mutex-guarded.  In the
interleaving where both concurrent redemptions of the valid code `"K"`
perform their atomic `GetAuthCode` reads before either performs its atomic
`DeleteAuthCode` (schedule T1.get, T2.get, T1.finish, T2.finish — between a
thread's read and its remaining thread-local steps only the other thread
touches the store), BOTH redemptions return a token response, although the
code is already gone from the store when the second thread finishes; a
serialized second redemption would have failed. -/
theorem Redeem_code_concurrent_race :
    (redeemAfterGet c1deps c1env c1st c1db c1req (GetAuthCode c1st "K")).1.isSuccess = true ∧
      (redeemAfterGet c1deps c1env2
          (redeemAfterGet c1deps c1env c1st c1db c1req (GetAuthCode c1st "K")).2.1
          (redeemAfterGet c1deps c1env c1st c1db c1req (GetAuthCode c1st "K")).2.2
          c1req (GetAuthCode c1st "K")).1.isSuccess = true ∧
      GetAuthCode (redeemAfterGet c1deps c1env c1st c1db c1req (GetAuthCode c1st "K")).2.1 "K"
        = none := by
  decide
